import Mathlib

/-!
# IDOL-Lab (`src/main.py`) — shallow embedding and verification

Shallow embedding of the entity model, clock/evaluation machinery, action
handlers and random-event injector of the IdoLab prototype.

Conventions of the embedding:
* Python integers are `Int`; Python floor division `//` is `Int.fdiv`.
* Every `random.randint(a, b)` / `random.random()` draw is an explicit extra
  parameter of the embedded function; theorems that depend on the range of a
  draw carry the range as a hypothesis.
* Python methods mutate objects in place; here each operation returns the
  updated record.  Where Python mutates an object that is referenced from
  several places (a trainee in the roster handed to `schedule_training`, a
  group inside `company.groups` handed to `release_song`/`promote`, the
  player's character), the embedded operation returns the updated object to
  the caller, which models the observable effect through that reference.
* Python truthiness tests on optional dataclass fields (`if self.player`,
  `if self.company`, `and self.player.character`) are `Option` matches:
  a dataclass instance is always truthy, so truthiness is exactly
  non-`None`-ness.
-/

namespace IdoLab

/-- `Trainee` dataclass of `src/main.py` (lines 61-72). -/
structure Trainee where
  name : String
  vocal : Int := 30
  dance : Int := 30
  rap : Int := 30
  visual : Int := 30
  charisma : Int := 30
  stamina : Int := 70
  popularity : Int := 10
  relationship : Int := 10
  trainee_since : Int := 1
  deriving Repr, DecidableEq

/-- `Trainee.train` (lines 74-96).  `base_gain` embeds
`random.randint(intensity - 2, intensity + 2)` and `stamina_loss` embeds
`random.randint(8, 12)`; the stamina decrement happens before the stat
branch, exactly as in the source. -/
def Trainee.train (t : Trainee) (stat : String) (base_gain stamina_loss : Int) :
    Trainee × String :=
  let t := { t with stamina := max 0 (t.stamina - stamina_loss) }
  let r : Trainee × String :=
    if stat = "vocal" then
      ({ t with vocal := t.vocal + base_gain }, "Vocal training +" ++ toString base_gain ++ ".")
    else if stat = "dance" then
      ({ t with dance := t.dance + base_gain }, "Dance training +" ++ toString base_gain ++ ".")
    else if stat = "rap" then
      ({ t with rap := t.rap + base_gain }, "Rap training +" ++ toString base_gain ++ ".")
    else if stat = "charisma" then
      ({ t with charisma := t.charisma + base_gain }, "Charisma workshop +" ++ toString base_gain ++ ".")
    else if stat = "visual" then
      ({ t with visual := t.visual + base_gain }, "Visual coaching +" ++ toString base_gain ++ ".")
    else
      (t, "Training focused on fundamentals.")
  (r.1, r.2 ++ " Stamina -10 (approx).")

/-- `Trainee.rest` (lines 98-101); `recovery` embeds `random.randint(10, 20)`. -/
def Trainee.rest (t : Trainee) (recovery : Int) : Trainee × String :=
  ({ t with stamina := min 100 (t.stamina + recovery) },
   "Rested and recovered " ++ toString recovery ++ " stamina.")

/-- `Trainee.adjust_popularity` (lines 103-104). -/
def Trainee.adjust_popularity (t : Trainee) (amount : Int) : Trainee :=
  { t with popularity := max 0 (t.popularity + amount) }

/-- `Trainee.adjust_relationship` (lines 106-107). -/
def Trainee.adjust_relationship (t : Trainee) (amount : Int) : Trainee :=
  { t with relationship := max 0 (min 100 (t.relationship + amount)) }

/-- `Trainee.score` (lines 109-110). -/
def Trainee.score (t : Trainee) : Int :=
  t.vocal + t.dance + t.rap + t.visual + t.charisma

/-- `Group` dataclass (lines 113-118). -/
structure Group where
  name : String
  members : List Trainee
  concept : String := "Fresh"
  popularity : Int := 0
  deriving Repr, DecidableEq

/-- `Group.calculate_power` (lines 120-123); `chemistry_bonus` embeds
`random.randint(0, 15)`. -/
def Group.calculate_power (g : Group) (chemistry_bonus : Int) : Int :=
  Int.fdiv ((g.members.map Trainee.score).sum) (max g.members.length 1) + chemistry_bonus

/-- `Group.debut_effect` (lines 125-131); `chemistry_bonus` feeds the inner
`calculate_power` call and `roll` embeds `random.randint(-10, 15)`.  Returns
the updated group (popularity raised and every member bumped in place by the
source) together with the returned `debut_pop`. -/
def Group.debut_effect (g : Group) (budget chemistry_bonus roll : Int) : Group × Int :=
  let power := g.calculate_power chemistry_bonus
  let debut_pop := Int.fdiv power 5 + Int.fdiv budget 10 + roll
  ({ g with popularity := g.popularity + debut_pop,
            members := g.members.map (fun m => m.adjust_popularity (Int.fdiv debut_pop 2)) },
   debut_pop)

/-- `SongProject` dataclass (lines 134-138). -/
structure SongProject where
  title : String
  budget : Int
  concept : String := "Bright"
  deriving Repr, DecidableEq

/-- `SongProject.outcome` (lines 140-146); `roll` embeds
`random.randint(-15, 25)` and `critical` embeds `random.random() < 0.1`. -/
def SongProject.outcome (p : SongProject) (group_power roll : Int) (critical : Bool) : Int :=
  let roll := if critical then roll + 30 else roll
  Int.fdiv group_power 3 + Int.fdiv p.budget 15 + roll

/-- `Company` dataclass (lines 149-156). -/
structure Company where
  name : String
  money : Int := 5000
  reputation : Int := 10
  trainees : List Trainee := []
  groups : List Group := []
  projects : List SongProject := []
  deriving Repr, DecidableEq

/-- `Company.recruit_trainee` (lines 158-162); `v`, `d`, `r` embed the three
`random.randint(20, 40)` stat draws.  Note: the source performs no
affordability check here — the trainee is appended and 300 deducted
unconditionally. -/
def Company.recruit_trainee (c : Company) (name : String) (v d r : Int) :
    Company × Trainee :=
  let new : Trainee := { name := name, vocal := v, dance := d, rap := r }
  ({ c with trainees := c.trainees ++ [new], money := c.money - 300 }, new)

/-- `Company.schedule_training` (lines 164-170).  The trainee argument is a
reference into the roster in the source; the updated trainee is returned
alongside the updated company. -/
def Company.schedule_training (c : Company) (t : Trainee) (focus : String)
    (base_gain stamina_loss : Int) : Company × Trainee × String :=
  if c.money < 150 then (c, t, "Not enough money for training.")
  else
    let c := { c with money := c.money - 150 }
    let r := t.train focus base_gain stamina_loss
    (c, r.1, "Training scheduled for " ++ t.name ++ ". " ++ r.2 ++ " Company money -150.")

/-- `Company.plan_debut` (lines 172-183); `chemistry_bonus` and `roll` feed
`Group.debut_effect`.  The source appends the group before calling
`debut_effect` on the aliased list entry and also bumps the selected roster
trainees through the same references; the embedding stores the post-debut
group and applies the same popularity bump to the matching roster entries. -/
def Company.plan_debut (c : Company) (names : List String) (concept : String)
    (budget chemistry_bonus roll : Int) : Company × String :=
  if c.money < budget then (c, "Not enough money to plan debut.")
  else
    let selected := c.trainees.filter (fun t => names.contains t.name)
    if selected.isEmpty then (c, "No valid trainees selected.")
    else
      let group : Group := { name := "Project " ++ concept, members := selected, concept := concept }
      let d := group.debut_effect budget chemistry_bonus roll
      let trainees2 := c.trainees.map (fun t =>
        if names.contains t.name then t.adjust_popularity (Int.fdiv d.2 2) else t)
      ({ c with groups := c.groups ++ [d.1], money := c.money - budget,
                reputation := c.reputation + Int.fdiv d.2 10, trainees := trainees2 },
       "Debuted group " ++ group.name ++ "! Popularity +" ++ toString d.2 ++
         ". Budget -" ++ toString budget ++ ".")

/-- `Company.release_song` (lines 185-195); `chemistry_bonus` feeds
`calculate_power`, `roll`/`critical` feed `SongProject.outcome`.  The group
argument is a reference into `company.groups` in the source; the updated
group is returned alongside the updated company. -/
def Company.release_song (c : Company) (g : Group) (title : String)
    (budget chemistry_bonus roll : Int) (critical : Bool) :
    Company × Group × String :=
  if c.money < budget then (c, g, "Not enough funds for release.")
  else
    let project : SongProject := { title := title, budget := budget }
    let power := g.calculate_power chemistry_bonus
    let result := project.outcome power roll critical
    ({ c with projects := c.projects ++ [project], money := c.money - budget,
              reputation := c.reputation + max 0 (Int.fdiv result 8) },
     { g with popularity := g.popularity + result },
     "Released \x27" ++ title ++ "\x27. Result +" ++ toString result ++
       " popularity for " ++ g.name ++ ". Cost " ++ toString budget ++ ".")

/-- `Company.promote` (lines 197-204); `r` embeds `random.randint(0, 10)`. -/
def Company.promote (c : Company) (g : Group) (budget r : Int) :
    Company × Group × String :=
  if c.money < budget then (c, g, "Not enough money for promotion.")
  else
    let gain := Int.fdiv budget 20 + r
    ({ c with money := c.money - budget, reputation := c.reputation + Int.fdiv gain 3 },
     { g with popularity := g.popularity + gain },
     "Promotions boost " ++ g.name ++ "\x27s popularity by " ++ toString gain ++
       ". Cost " ++ toString budget ++ ".")

/-- `Company.update_finances` (lines 206-207). -/
def Company.update_finances (c : Company) (amount : Int) : Company :=
  { c with money := c.money + amount }

/-- `Player` dataclass (lines 210-214); `role` is the raw string
`"CEO"` / `"Trainee"` as in the source. -/
structure Player where
  name : String
  role : String
  character : Option Trainee := none
  deriving Repr, DecidableEq

/-- `GameState` dataclass (lines 217-225). -/
structure GameState where
  day : Int := 1
  month : Int := 1
  year : Int := 1
  player : Option Player := none
  company : Option Company := none
  trainee_failures : Int := 0
  message_log : List String := []
  deriving Repr, DecidableEq

/-- The trainee-role branch of `GameState.monthly_evaluation` (lines
238-249): fires exactly when `self.player` is truthy, `role == "Trainee"`
and `self.player.character` is truthy; `penalty` embeds
`random.randint(5, 10)`. -/
def GameState.trainee_eval (s : GameState) (penalty : Int) :
    Option (GameState × String) :=
  match s.player with
  | none => none
  | some p =>
    if p.role = "Trainee" then
      match p.character with
      | none => none
      | some t =>
        let score := t.score + t.popularity
        let threshold := 220 + s.year * 10
        if score ≥ threshold then
          let t2 := (t.adjust_relationship 5).adjust_popularity 5
          some ({ s with player := some { p with character := some t2 } },
            "Monthly evaluation passed! Score " ++ toString score ++ " / " ++
              toString threshold ++ ". Relationship +5.")
        else
          let t2 := t.adjust_relationship (-penalty)
          some ({ s with player := some { p with character := some t2 },
                         trainee_failures := s.trainee_failures + 1 },
            "Evaluation failed. Score " ++ toString score ++ " / " ++
              toString threshold ++ ". Relationship -" ++ toString penalty ++ ".")
    else none

/-- The CEO finance tick of `monthly_evaluation`:
`sum(g.popularity // 2 for g in self.company.groups)` (line 252). -/
def groupIncome (c : Company) : Int :=
  (c.groups.map (fun g => Int.fdiv g.popularity 2)).sum

/-- `GameState.monthly_evaluation` (lines 237-255).  When the trainee branch
does not fire, the source only tests `if self.company:` — the finance tick
runs for any truthy company, whatever the player's role (even `None`). -/
def GameState.monthly_evaluation (s : GameState) (penalty : Int) :
    GameState × String :=
  match s.trainee_eval penalty with
  | some r => r
  | none =>
    match s.company with
    | some c =>
      let income := (c.groups.map (fun g => Int.fdiv g.popularity 2)).sum
      ({ s with company := some (c.update_finances income) },
        "Monthly income report: earned " ++ toString income ++ " from active groups.")
    | none => (s, "The month rolls by without major events.")

/-- `GameState.advance_day` (lines 227-235).  The `monthly_evaluation` call
sits inside the `day > 30` block, after the `month > 12` adjustment, so it
runs at every month rollover (year rollover included). -/
def GameState.advance_day (s : GameState) (penalty : Int) : GameState :=
  let s := { s with day := s.day + 1 }
  if s.day > 30 then
    let s := { s with day := 1, month := s.month + 1 }
    let s := if s.month > 12 then { s with month := 1, year := s.year + 1 } else s
    let r := s.monthly_evaluation penalty
    { r.1 with message_log := r.1.message_log ++ [r.2] }
  else s

/-- `GameState.check_victory_or_defeat` (lines 257-275): a pure predicate on
the state (the source reads fields and returns, mutating nothing). -/
def GameState.check_victory_or_defeat (s : GameState) : Option String :=
  let ceo : Option String :=
    match s.player, s.company with
    | some p, some c =>
      if p.role = "CEO" then
        if c.money < -2000 then
          some "Bankruptcy! Your company could not pay its bills."
        else if c.groups.any (fun g => decide (g.popularity ≥ 300)) then
          some "Success! One of your groups became a top act."
        else if s.year > 5 then
          some (if c.reputation < 80 then
            "Time\x27s up. The industry moved on before you produced a hit."
          else "Legendary CEO!")
        else none
      else none
    | _, _ => none
  match ceo with
  | some m => some m
  | none =>
    match s.player with
    | some p =>
      if p.role = "Trainee" then
        match p.character with
        | some t =>
          if t.popularity ≥ 200 ∧ t.score ≥ 350 then
            some "You debuted and became a sensation!"
          else if s.trainee_failures ≥ 3 then
            some "You were cut after repeated failed evaluations."
          else if s.year > 5 then
            some (if t.popularity < 150 then
              "The window closed before you could debut."
            else "Late bloomer debut success!")
          else none
        | none => none
      else none
    | none => none

/-- Replace the player's character, modelling the in-place mutation of
`state.player.character` performed by the trainee-mode handlers. -/
def GameState.set_character (s : GameState) (p : Player) (t : Trainee) : GameState :=
  { s with player := some { p with character := some t } }

/-- `handle_trainee_action` (lines 412-443).  `focus` embeds the
`input(...)` read of choice 1; `d1` embeds the first `random.randint` of the
chosen branch (`intensity` gain for 1, recovery for 2, `randint(3, 10)` for
3, `randint(-10, 25)` for 4) and `d2` the second (`randint(8, 12)` stamina
loss of `train`). -/
def handle_trainee_action (s : GameState) (choice : Int) (focus : String)
    (d1 d2 : Int) : GameState × String :=
  match s.player with
  | none => (s, "No trainee data loaded.")
  | some p =>
    match p.character with
    | none => (s, "No trainee data loaded.")
    | some t =>
      if choice = 1 then
        let r := t.train focus d1 d2
        (s.set_character p r.1, r.2)
      else if choice = 2 then
        let r := t.rest d1
        (s.set_character p r.1, r.2)
      else if choice = 3 then
        let t2 := (t.adjust_relationship d1).adjust_popularity (Int.fdiv d1 2)
        (s.set_character p t2,
         "Shared practice room gossip. Relationship +" ++ toString d1 ++
           ", Popularity +" ++ toString (Int.fdiv d1 2) ++ ".")
      else if choice = 4 then
        let score := t.score + d1
        let threshold := 210 + s.year * 10
        if score ≥ threshold then
          let t2 := (t.adjust_popularity 10).adjust_relationship 5
          (s.set_character p t2,
           "Evaluation success! Score " ++ toString score ++ " / " ++
             toString threshold ++ ". Popularity +10.")
        else
          let s2 := { s with trainee_failures := s.trainee_failures + 1 }
          let t2 := t.adjust_relationship (-5)
          (s2.set_character p t2,
           "Evaluation tough. Score " ++ toString score ++ " / " ++
             toString threshold ++ ". Failure count " ++
             toString (s.trainee_failures + 1) ++ ".")
      else if choice = 5 then
        (s, "Stats - Vocal:" ++ toString t.vocal ++ " Dance:" ++ toString t.dance ++
          " Rap:" ++ toString t.rap ++ " Visual:" ++ toString t.visual ++
          " Charisma:" ++ toString t.charisma ++ " Stamina:" ++ toString t.stamina ++
          " Popularity:" ++ toString t.popularity ++
          " Relationship:" ++ toString t.relationship)
      else (s, "Day passes while you reflect on your dreams.")

/-- Index of the first group with maximal popularity: Python's
`max(groups, key=lambda g: g.popularity)` keeps the earliest element whose
key is strictly greater than the current best, so ties go to the first. -/
def topGroupIdx (gs : List Group) : Nat :=
  (List.range gs.length).foldl
    (fun best i =>
      match gs[i]?, gs[best]? with
      | some gi, some gb => if gi.popularity > gb.popularity then i else best
      | _, _ => best)
    0

/-- Add `amt` popularity to the first maximal-popularity group, the
`top_group.popularity += bonus // 10` mutation of `random_event`. -/
def bumpTopGroup (gs : List Group) (amt : Int) : List Group :=
  match gs[topGroupIdx gs]? with
  | some g => gs.set (topGroupIdx gs) { g with popularity := g.popularity + amt }
  | none => gs

/-- `random_event` (lines 451-475).  `roll` embeds `random.random()` as an
exact rational; `draw` embeds the single `random.randint` of whichever
branch fires (loss 200-800, injury 5-15, bonus 300-900 or boost 8-18).
Result `none` marks the `AttributeError` the source raises when a branch is
entered with `state.player = None` (`state.player.role` is read unguarded);
otherwise `some (s2, msg?)` gives the updated state and the optional event
message.  In the source the two `if` bodies are sequential, but the first
can only fall through with `roll < 0.08`, which makes `roll > 0.92` false,
so the chained conditional below is equivalent. -/
def random_event (s : GameState) (roll : ℚ) (draw : Int) :
    Option (GameState × Option String) :=
  if roll < 8/100 then
    match s.player with
    | none => none
    | some p =>
      if p.role = "CEO" ∧ s.company.isSome then
        match s.company with
        | some c =>
          some ({ s with company := some { c with money := c.money - draw } },
            some ("Unexpected venue cancellation. Lost " ++ toString draw ++ " in fees."))
        | none => some (s, none)
      else
        match p.character with
        | some t =>
          let t2 := { t with stamina := max 0 (t.stamina - draw) }
          some ({ s with player := some { p with character := some t2 } },
            some ("Minor injury during rehearsal. Stamina -" ++ toString draw ++ "."))
        | none => some (s, none)
  else if roll > 92/100 then
    match s.player with
    | none => none
    | some p =>
      if p.role = "CEO" ∧ (s.company.map (fun c => !c.groups.isEmpty)).getD false then
        match s.company with
        | some c =>
          let c2 := { c with money := c.money + draw,
                             groups := bumpTopGroup c.groups (Int.fdiv draw 10) }
          let topName := ((c.groups[topGroupIdx c.groups]?).map Group.name).getD ""
          some ({ s with company := some c2 },
            some ("Viral moment! " ++ topName ++ " trend boosts funds by " ++
              toString draw ++ "."))
        | none => some (s, none)
      else
        match p.character with
        | some t =>
          some ({ s with player := some { p with character := some (t.adjust_popularity draw) } },
            some ("Fan edit goes viral. Popularity +" ++ toString draw ++ "."))
        | none => some (s, none)
  else some (s, none)

/-- Fold `advance_day` over a list of penalty draws, one per call. -/
def advanceDays (s : GameState) (ps : List Int) : GameState :=
  ps.foldl (fun st pn => st.advance_day pn) s

/-- Append an evaluation message to the log, the
`self.message_log.append(self.monthly_evaluation())` step of
`advance_day`. -/
def logAppend (r : GameState × String) : GameState :=
  { r.1 with message_log := r.1.message_log ++ [r.2] }

/-- The spec's Trainee invariant: stamina ∈ [0, 100], popularity ≥ 0,
relationship ∈ [0, 100]. -/
def TraineeInv (t : Trainee) : Prop :=
  0 ≤ t.stamina ∧ t.stamina ≤ 100 ∧ 0 ≤ t.popularity ∧
    0 ≤ t.relationship ∧ t.relationship ≤ 100

instance (t : Trainee) : Decidable (TraineeInv t) := by
  unfold TraineeInv; infer_instance

/-- The player's character, read through the optional player — the value the
trainee-mode handlers mutate in place. -/
def GameState.character? (s : GameState) : Option Trainee :=
  s.player.bind Player.character

/-! Concrete inputs used by witnesses and counterexamples. -/

/-- A company with no funds. -/
def pennilessCompany : Company := { name := "IdoLab Entertainment", money := 0 }

/-- A company that can afford a small budget. -/
def smallCompany : Company := { name := "IdoLab Entertainment", money := 100 }

/-- A group with no members (the source guards its power computation against
the empty member list, so this is a legal `Group` value). -/
def emptyGroup : Group := { name := "Project Fresh", members := [] }

/-- A default-stats trainee. -/
def demoTrainee : Trainee := { name := "Ara" }

/-- A group whose popularity is 10. -/
def groupTen : Group := { name := "Project Dark", members := [], popularity := 10 }

/-- A company holding one group of popularity 10. -/
def companyWithGroup : Company := { name := "IdoLab Entertainment", money := 1000, groups := [groupTen] }

/-- A state with a company but no player at all. -/
def headlessState : GameState := { player := none, company := some companyWithGroup }

/-- A very popular group. -/
def richGroup : Group := { name := "Project Retro", members := [], popularity := 999 }

/-- A bankrupt company that nevertheless has a topping group and huge
reputation. -/
def bankruptCompany : Company :=
  { name := "IdoLab Entertainment", money := -2001, reputation := 500, groups := [richGroup] }

/-- A CEO state over the bankrupt company, deep into year 9. -/
def bankruptState : GameState :=
  { player := some { name := "P", role := "CEO" }, company := some bankruptCompany, year := 9 }

/-- A trainee matching the sensation-win profile of the spec: popularity 200
and all five skills 70 (score 350). -/
def starTrainee : Trainee :=
  { name := "S", vocal := 70, dance := 70, rap := 70, visual := 70, charisma := 70,
    popularity := 200 }

/-- A trainee-mode state around `starTrainee` with many failures and a late
year. -/
def starState : GameState :=
  { player := some { name := "S", role := "Trainee", character := some starTrainee },
    trainee_failures := 42, year := 9 }

/-- A trainee-mode state around a default trainee. -/
def demoState : GameState :=
  { player := some { name := "Ara", role := "Trainee", character := some demoTrainee } }

/-- One failed daily evaluation: choice 4 of `handle_trainee_action` with the
worst exam draw. -/
def evalStep (st : GameState) : GameState :=
  (handle_trainee_action st 4 "" (-10) 0).1

/-- C8: after any call to `rest`, stamina is exactly
`min 100 (stamina + recovery)`, hence at most 100 and (since the recovery
draw `uniform_int(10, 20)` is positive and stamina starts ≤ 100) at least
the stamina before the call. -/
theorem rest_bounded_and_monotone (t : Trainee) (recovery : Int)
    (h10 : 10 ≤ recovery) (h20 : recovery ≤ 20) (hst : t.stamina ≤ 100) :
    (t.rest recovery).1.stamina = min 100 (t.stamina + recovery) ∧
    (t.rest recovery).1.stamina ≤ 100 ∧
    t.stamina ≤ (t.rest recovery).1.stamina := by
  refine ⟨rfl, ?_, ?_⟩
  · simp [Trainee.rest]
  · simp [Trainee.rest]
    omega

/-- Witness for C8 at a concrete trainee and draw. -/
theorem rest_bounded_and_monotone_witness :
    (demoTrainee.rest 15).1.stamina = min 100 (demoTrainee.stamina + 15) ∧
    (demoTrainee.rest 15).1.stamina ≤ 100 ∧
    demoTrainee.stamina ≤ (demoTrainee.rest 15).1.stamina :=
  rest_bounded_and_monotone demoTrainee 15 (by decide) (by decide) (by decide)

/-- C5: for a Trainee-role player whose character has popularity 200 and all
five skills equal to 70 (score 350), `check_victory_or_defeat` returns the
sensation win message, whatever `trainee_failures`, `year` and every other
field are. -/
theorem sensation_win (s : GameState) (p : Player) (t : Trainee)
    (hp : s.player = some p) (hrole : p.role = "Trainee") (hch : p.character = some t)
    (hpop : t.popularity = 200) (hv : t.vocal = 70) (hd : t.dance = 70)
    (hr : t.rap = 70) (hvi : t.visual = 70) (hcha : t.charisma = 70) :
    s.check_victory_or_defeat = some "You debuted and became a sensation!" := by
  unfold GameState.check_victory_or_defeat
  rcases hc : s.company with _ | c <;>
    simp [hp, hc, hrole, hch, Trainee.score, hpop, hv, hd, hr, hvi, hcha]

/-- Witness for C5: the concrete star trainee in year 9 with 42 failures. -/
theorem sensation_win_witness :
    starState.check_victory_or_defeat = some "You debuted and became a sensation!" :=
  sensation_win starState { name := "S", role := "Trainee", character := some starTrainee }
    starTrainee rfl rfl rfl rfl rfl rfl rfl rfl rfl

/-- C9: `random_event` with a draw in the closed band [0.08, 0.92] returns
the state unchanged and no message (and does not hit the unguarded
`state.player.role` read); and a call can only produce a message in exactly
one of the two branches — `draw < 0.08` and `draw > 0.92` are mutually
exclusive. -/
theorem random_event_band_and_exclusive :
    (∀ (s : GameState) (roll : ℚ) (draw : Int),
        8/100 ≤ roll → roll ≤ 92/100 →
        random_event s roll draw = some (s, none)) ∧
    (∀ (s : GameState) (roll : ℚ) (draw : Int) (r : GameState × Option String),
        random_event s roll draw = some r → r.2 ≠ none →
        (roll < 8/100 ∧ ¬roll > 92/100) ∨ (roll > 92/100 ∧ ¬roll < 8/100)) := by
  constructor
  · intro s roll draw h1 h2
    unfold random_event
    rw [if_neg (not_lt.mpr h1), if_neg (not_lt.mpr h2)]
  · intro s roll draw r hr hmsg
    by_cases hlo : roll < 8/100
    · exact Or.inl ⟨hlo, by intro hhi; linarith⟩
    · by_cases hhi : roll > 92/100
      · exact Or.inr ⟨hhi, hlo⟩
      · exfalso
        apply hmsg
        unfold random_event at hr
        rw [if_neg hlo, if_neg hhi] at hr
        cases hr
        rfl

/-- Witness for C9 at a concrete state and a mid-band draw. -/
theorem random_event_band_and_exclusive_witness :
    random_event headlessState (1/2) 7 = some (headlessState, none) :=
  random_event_band_and_exclusive.1 headlessState (1/2) 7 (by norm_num) (by norm_num)

/-- C4: `check_victory_or_defeat` is embedded as a pure function of the
state, as the source reads fields and returns without assigning; for a CEO
player over a company with money −2001 it returns the bankruptcy message
whatever the groups, reputation, year and the remaining fields hold, the
listed evaluation order being the tie-break priority with bankruptcy first;
and it returns `none` when none of the listed conditions fires. -/
theorem bankruptcy_first_and_none :
    (∀ (s : GameState) (p : Player) (c : Company),
        s.player = some p → p.role = "CEO" → s.company = some c → c.money = -2001 →
        s.check_victory_or_defeat =
          some "Bankruptcy! Your company could not pay its bills.") ∧
    (∀ (s : GameState),
        (∀ p c, s.player = some p → s.company = some c → p.role = "CEO" →
          -2000 ≤ c.money ∧ (∀ g ∈ c.groups, g.popularity < 300) ∧ s.year ≤ 5) →
        (∀ p t, s.player = some p → p.role = "Trainee" → p.character = some t →
          (t.popularity < 200 ∨ t.score < 350) ∧ s.trainee_failures < 3 ∧ s.year ≤ 5) →
        s.check_victory_or_defeat = none) := by
  constructor
  · intro s p c hp hrole hc hm
    unfold GameState.check_victory_or_defeat
    simp [hp, hc, hrole, hm]
  · intro s hceo htr
    unfold GameState.check_victory_or_defeat
    rcases hp : s.player with _ | p
    · simp
    · have trainee_none :
          (if p.role = "Trainee" then
            match p.character with
            | some t =>
              if t.popularity ≥ 200 ∧ t.score ≥ 350 then
                some "You debuted and became a sensation!"
              else if s.trainee_failures ≥ 3 then
                some "You were cut after repeated failed evaluations."
              else if s.year > 5 then
                some (if t.popularity < 150 then
                  "The window closed before you could debut."
                else "Late bloomer debut success!")
              else none
            | none => none
          else none) = none := by
        by_cases hrole : p.role = "Trainee"
        · rcases hch : p.character with _ | t
          · simp [hrole]
          · obtain ⟨h1, h2, h3⟩ := htr p t hp hrole hch
            have hnot : ¬(t.popularity ≥ 200 ∧ t.score ≥ 350) := by
              rcases h1 with h1 | h1 <;> omega
            simp [hrole, hnot, show ¬s.trainee_failures ≥ 3 by omega,
              show ¬s.year > 5 by omega]
        · simp [hrole]
      rcases hc : s.company with _ | c
      · simpa [hp, hc] using trainee_none
      · by_cases hrole : p.role = "CEO"
        · obtain ⟨h1, h2, h3⟩ := hceo p c hp hc hrole
          have hany : (c.groups.any fun g => decide (g.popularity ≥ 300)) = false := by
            rw [List.any_eq_false]
            intro g hg
            have := h2 g hg
            simp
            omega
          simp [hp, hc, hrole, show ¬c.money < -2000 by omega, hany,
            show ¬s.year > 5 by omega]
        · simpa [hp, hc, hrole] using trainee_none

/-- Witness for C4: the concrete bankrupt CEO state (year 9, reputation 500,
a group at popularity 999) is declared bankrupt, and a freshly initialized
state yields `none`. -/
theorem bankruptcy_first_and_none_witness :
    bankruptState.check_victory_or_defeat =
      some "Bankruptcy! Your company could not pay its bills." ∧
    (GameState.mk 1 1 1 (some (Player.mk "P" "CEO" none))
        (some pennilessCompany) 0 []).check_victory_or_defeat = none := by
  constructor
  · exact bankruptcy_first_and_none.1 bankruptState
      { name := "P", role := "CEO" } bankruptCompany rfl rfl rfl rfl
  · exact bankruptcy_first_and_none.2 _
      (by intro p c hp hc hrole; cases hp; cases hc; exact ⟨by decide, by decide, by decide⟩)
      (by intro p t hp hrole hch; cases hp; simp at hrole)

/-- C1 counterexample: `recruit_trainee` on a company with money 0 (below
the fixed cost 300) does not return a failure message — it is the one costed
action with no affordability check: the trainee is appended and money is
driven to −300. -/
theorem recruit_no_affordability_check :
    pennilessCompany.money < 300 ∧
    (pennilessCompany.recruit_trainee "Bob" 20 20 20).1.money = -300 ∧
    (pennilessCompany.recruit_trainee "Bob" 20 20 20).1.trainees ≠ [] := by
  decide

/-- C1 amended: `schedule_training`, `plan_debut`, `release_song` and
`promote` each first check `money < cost` and on failure return their
descriptive message with the company (and the referenced trainee or group)
unchanged; on success they deduct exactly the cost and apply the domain
effect (for `plan_debut` success additionally requires a nonempty name
selection — with enough money but no matching roster trainee it returns
"No valid trainees selected." and mutates nothing).  `recruit_trainee`
alone performs no affordability check: it unconditionally appends the new
trainee and deducts 300. -/
theorem costed_actions_soft_fail :
    (∀ (c : Company) (t : Trainee) (focus : String) (g l : Int),
        c.money < 150 →
        c.schedule_training t focus g l = (c, t, "Not enough money for training.")) ∧
    (∀ (c : Company) (t : Trainee) (focus : String) (g l : Int),
        150 ≤ c.money →
        (c.schedule_training t focus g l).1 = { c with money := c.money - 150 } ∧
        (c.schedule_training t focus g l).2.1 = (t.train focus g l).1) ∧
    (∀ (c : Company) (names : List String) (concept : String) (budget cb roll : Int),
        c.money < budget →
        c.plan_debut names concept budget cb roll = (c, "Not enough money to plan debut.")) ∧
    (∀ (c : Company) (names : List String) (concept : String) (budget cb roll : Int),
        budget ≤ c.money →
        c.trainees.filter (fun t => names.contains t.name) = [] →
        c.plan_debut names concept budget cb roll = (c, "No valid trainees selected.")) ∧
    (∀ (c : Company) (names : List String) (concept : String) (budget cb roll : Int),
        budget ≤ c.money →
        c.trainees.filter (fun t => names.contains t.name) ≠ [] →
        (c.plan_debut names concept budget cb roll).1.money = c.money - budget ∧
        (c.plan_debut names concept budget cb roll).1.groups.length = c.groups.length + 1) ∧
    (∀ (c : Company) (g : Group) (title : String) (budget cb roll : Int) (crit : Bool),
        c.money < budget →
        c.release_song g title budget cb roll crit = (c, g, "Not enough funds for release.")) ∧
    (∀ (c : Company) (g : Group) (title : String) (budget cb roll : Int) (crit : Bool),
        budget ≤ c.money →
        (c.release_song g title budget cb roll crit).1.money = c.money - budget ∧
        (c.release_song g title budget cb roll crit).2.1.popularity =
          g.popularity +
            ({ title := title, budget := budget } : SongProject).outcome
              (g.calculate_power cb) roll crit) ∧
    (∀ (c : Company) (g : Group) (budget r : Int),
        c.money < budget →
        c.promote g budget r = (c, g, "Not enough money for promotion.")) ∧
    (∀ (c : Company) (g : Group) (budget r : Int),
        budget ≤ c.money →
        (c.promote g budget r).1.money = c.money - budget ∧
        (c.promote g budget r).2.1.popularity = g.popularity + (Int.fdiv budget 20 + r)) ∧
    (∀ (c : Company) (nm : String) (v d r : Int),
        (c.recruit_trainee nm v d r).1.money = c.money - 300 ∧
        (c.recruit_trainee nm v d r).1.trainees =
          c.trainees ++ [(c.recruit_trainee nm v d r).2]) := by
  refine ⟨?_, ?_, ?_, ?_, ?_, ?_, ?_, ?_, ?_, ?_⟩
  · intro c t focus g l h
    unfold Company.schedule_training
    rw [if_pos h]
  · intro c t focus g l h
    unfold Company.schedule_training
    rw [if_neg (not_lt.mpr h)]
    exact ⟨rfl, rfl⟩
  · intro c names concept budget cb roll h
    unfold Company.plan_debut
    rw [if_pos h]
  · intro c names concept budget cb roll h hsel
    unfold Company.plan_debut
    rw [if_neg (not_lt.mpr h), if_pos (List.isEmpty_iff.mpr hsel)]
  · intro c names concept budget cb roll h hsel
    unfold Company.plan_debut
    rw [if_neg (not_lt.mpr h), if_neg (by simp only [List.isEmpty_iff]; exact hsel)]
    simp
  · intro c g title budget cb roll crit h
    unfold Company.release_song
    rw [if_pos h]
  · intro c g title budget cb roll crit h
    unfold Company.release_song
    rw [if_neg (not_lt.mpr h)]
    exact ⟨rfl, rfl⟩
  · intro c g budget r h
    unfold Company.promote
    rw [if_pos h]
  · intro c g budget r h
    unfold Company.promote
    rw [if_neg (not_lt.mpr h)]
    exact ⟨rfl, rfl⟩
  · intro c nm v d r
    exact ⟨rfl, rfl⟩

/-- Witness for C1 at concrete inputs: a 100-money company soft-fails
training and hard-pays promotion of cost 100. -/
theorem costed_actions_soft_fail_witness :
    smallCompany.schedule_training demoTrainee "vocal" 5 10 =
      (smallCompany, demoTrainee, "Not enough money for training.") ∧
    (smallCompany.promote groupTen 100 3).1.money = smallCompany.money - 100 := by
  constructor
  · exact costed_actions_soft_fail.1 smallCompany demoTrainee "vocal" 5 10 (by decide)
  · exact (costed_actions_soft_fail.2.2.2.2.2.2.2.2.1 smallCompany groupTen 100 3
      (by decide)).1

/-- A member of `bumpTopGroup gs amt` is either an untouched member of `gs`
or the popularity-bumped copy of a member of `gs`. -/
lemma mem_bumpTopGroup {gs : List Group} {amt : Int} {g : Group}
    (hg : g ∈ bumpTopGroup gs amt) :
    g ∈ gs ∨ ∃ g0 ∈ gs, g = { g0 with popularity := g0.popularity + amt } := by
  unfold bumpTopGroup at hg
  rcases h : gs[topGroupIdx gs]? with _ | g0 <;> rw [h] at hg
  · exact Or.inl hg
  · rcases List.mem_or_eq_of_mem_set hg with h1 | h1
    · exact Or.inl h1
    · exact Or.inr ⟨g0, List.getElem?_mem h, h1⟩

/-- The trainee branch of the monthly evaluation leaves the company
untouched. -/
lemma trainee_eval_company {s : GameState} {pn : Int} {r : GameState × String}
    (he : s.trainee_eval pn = some r) : r.1.company = s.company := by
  unfold GameState.trainee_eval at he
  rcases hp : s.player with _ | p <;> rw [hp] at he <;> dsimp only at he
  · exact absurd he (by simp)
  · by_cases hrole : p.role = "Trainee"
    · rw [if_pos hrole] at he
      rcases hch : p.character with _ | t <;> rw [hch] at he
      · exact absurd he (by simp)
      · dsimp only at he
        split at he <;> (cases he; rfl)
    · rw [if_neg hrole] at he
      exact absurd he (by simp)

/-- `monthly_evaluation` never touches the groups: whatever branch fires,
the resulting company (when there is one) carries exactly the groups of the
incoming company. -/
lemma monthly_evaluation_groups (s : GameState) (pn : Int) (c2 : Company)
    (h : (s.monthly_evaluation pn).1.company = some c2) :
    ∃ c, s.company = some c ∧ c2.groups = c.groups := by
  unfold GameState.monthly_evaluation at h
  rcases he : s.trainee_eval pn with _ | r <;> rw [he] at h
  · rcases hc : s.company with _ | c <;> rw [hc] at h
    · simp at h
      exact absurd (hc.symm.trans (by simpa using h)) (by simp)
    · simp at h
      refine ⟨c, rfl, ?_⟩
      rw [← h]
      rfl
  · have hcomp := trainee_eval_company he
    dsimp only at h
    rw [hcomp] at h
    exact ⟨c2, h, rfl⟩

/-- C2 counterexample: `release_song` on an empty-member group of
popularity 0 (power 0 with chemistry draw 0), budget 100 against money 100,
roll −15 (in range) and no critical, leaves the group at popularity −9:
group popularity is not floored at 0. -/
theorem release_song_negative_popularity :
    0 ≤ emptyGroup.popularity ∧
    ¬smallCompany.money < 100 ∧
    (smallCompany.release_song emptyGroup "Title" 100 0 (-15) false).2.1.popularity = -9 := by
  decide

/-- C2 amended: group popularity can drop below 0 — `release_song` adds the
raw (possibly negative) song outcome, and `debut_effect` the raw pop gain,
with no floor.  What does hold: `promote` preserves nonnegative group
popularity for the in-game budget and draw ranges, `monthly_evaluation`
leaves every group's popularity unchanged, and `random_event` (whose bonus
draws are nonnegative) preserves nonnegativity of every group's
popularity. -/
theorem group_popularity_preservation :
    (∀ (c : Company) (g : Group) (budget r : Int),
        0 ≤ g.popularity → 0 ≤ budget → 0 ≤ r →
        0 ≤ (c.promote g budget r).2.1.popularity) ∧
    (∀ (s : GameState) (pn : Int) (c2 : Company),
        (∀ c, s.company = some c → ∀ g ∈ c.groups, 0 ≤ g.popularity) →
        (s.monthly_evaluation pn).1.company = some c2 →
        ∀ g ∈ c2.groups, 0 ≤ g.popularity) ∧
    (∀ (s : GameState) (roll : ℚ) (draw : Int) (r : GameState × Option String),
        random_event s roll draw = some r → 0 ≤ draw →
        (∀ c, s.company = some c → ∀ g ∈ c.groups, 0 ≤ g.popularity) →
        ∀ c2, r.1.company = some c2 → ∀ g ∈ c2.groups, 0 ≤ g.popularity) := by
  refine ⟨?_, ?_, ?_⟩
  · intro c g budget r hg hb hr
    unfold Company.promote
    by_cases h : c.money < budget
    · rw [if_pos h]; exact hg
    · rw [if_neg h]
      simp only
      have : 0 ≤ Int.fdiv budget 20 := Int.fdiv_nonneg hb (by omega)
      omega
  · intro s pn c2 hinv h
    obtain ⟨c, hc, hgr⟩ := monthly_evaluation_groups s pn c2 h
    rw [hgr]
    exact hinv c hc
  · intro s roll draw r hr hd hinv c2 hc2 g hg
    unfold random_event at hr
    by_cases h1 : roll < 8/100
    · rw [if_pos h1] at hr
      rcases hp : s.player with _ | p <;> rw [hp] at hr <;> dsimp only at hr
      · exact absurd hr (by simp)
      · by_cases hcond : p.role = "CEO" ∧ s.company.isSome
        · rw [if_pos hcond] at hr
          rcases hc : s.company with _ | c <;> rw [hc] at hr <;>
            simp only [Option.some.injEq] at hr <;> subst hr <;>
            simp only [Option.some.injEq] at hc2
          · exact hinv c2 hc2 g hg
          · rw [← hc2] at hg
            exact hinv c hc g hg
        · rw [if_neg hcond] at hr
          rcases hch : p.character with _ | t <;> rw [hch] at hr <;>
            simp only [Option.some.injEq] at hr <;> subst hr <;>
            dsimp only at hc2
          · exact hinv c2 hc2 g hg
          · exact hinv c2 hc2 g hg
    · rw [if_neg h1] at hr
      by_cases h2 : roll > 92/100
      · rw [if_pos h2] at hr
        rcases hp : s.player with _ | p <;> rw [hp] at hr <;> dsimp only at hr
        · exact absurd hr (by simp)
        · by_cases hcond : p.role = "CEO" ∧
              (s.company.map (fun c => !c.groups.isEmpty)).getD false = true
          · rw [if_pos hcond] at hr
            rcases hc : s.company with _ | c <;> rw [hc] at hr <;>
              simp only [Option.some.injEq] at hr <;> subst hr <;>
              simp only [Option.some.injEq] at hc2
            · exact hinv c2 hc2 g hg
            · rw [← hc2] at hg
              dsimp only at hg
              rcases mem_bumpTopGroup hg with hmem | ⟨g0, hg0, hgeq⟩
              · exact hinv c hc g hmem
              · have h0 : 0 ≤ g0.popularity := hinv c hc g0 hg0
                have hfd : 0 ≤ Int.fdiv draw 10 := Int.fdiv_nonneg hd (by omega)
                rw [hgeq]
                dsimp only
                omega
          · rw [if_neg hcond] at hr
            rcases hch : p.character with _ | t <;> rw [hch] at hr <;>
              simp only [Option.some.injEq] at hr <;> subst hr <;>
              dsimp only at hc2
            · exact hinv c2 hc2 g hg
            · exact hinv c2 hc2 g hg
      · rw [if_neg h2] at hr
        simp only [Option.some.injEq] at hr
        subst hr
        exact hinv c2 hc2 g hg

/-- Witness for C2 at concrete inputs: promoting the popularity-10 group
with budget 100 and draw 3 keeps its popularity nonnegative, and a mid-band
random event on the headless state keeps its group nonnegative. -/
theorem group_popularity_preservation_witness :
    0 ≤ (companyWithGroup.promote groupTen 100 3).2.1.popularity ∧
    (∀ g ∈ companyWithGroup.groups, 0 ≤ g.popularity) := by
  constructor
  · exact group_popularity_preservation.1 companyWithGroup groupTen 100 3
      (by decide) (by decide) (by decide)
  · decide

/-- C6 counterexample: with no player at all (so neither role is populated)
but a company holding one group of popularity 10, `monthly_evaluation` does
not return the generic flavor message and does mutate the state — the
income branch only tests `if self.company:`, never the role. -/
theorem monthly_evaluation_income_without_player :
    headlessState.player = none ∧
    (headlessState.monthly_evaluation 7).2 ≠ "The month rolls by without major events." ∧
    (headlessState.monthly_evaluation 7).1 ≠ headlessState ∧
    ((headlessState.monthly_evaluation 7).1.company.map Company.money) = some 1005 := by
  decide

/-- C6 amended: when the trainee branch does not apply (no player, wrong
role, or no character), `monthly_evaluation` returns the generic flavor
message and mutates nothing only if the company is also absent; if a
company is present, the income branch runs regardless of the player's role,
adding the group income to company money. -/
theorem monthly_evaluation_generic_branch :
    (∀ (s : GameState) (pn : Int),
        (∀ p, s.player = some p → p.role = "Trainee" → p.character = none) →
        s.company = none →
        s.monthly_evaluation pn = (s, "The month rolls by without major events.")) ∧
    (∀ (s : GameState) (pn : Int) (c : Company),
        (∀ p, s.player = some p → p.role = "Trainee" → p.character = none) →
        s.company = some c →
        (s.monthly_evaluation pn).1 =
          { s with company := some (c.update_finances (groupIncome c)) }) := by
  have eval_none : ∀ (s : GameState) (pn : Int),
      (∀ p, s.player = some p → p.role = "Trainee" → p.character = none) →
      s.trainee_eval pn = none := by
    intro s pn hno
    unfold GameState.trainee_eval
    rcases hp : s.player with _ | p
    · rfl
    · dsimp only
      by_cases hrole : p.role = "Trainee"
      · rw [hno p hp hrole, if_pos hrole]
      · rw [if_neg hrole]
  constructor
  · intro s pn hno hc
    unfold GameState.monthly_evaluation
    rw [eval_none s pn hno, hc]
  · intro s pn c hno hc
    unfold GameState.monthly_evaluation
    rw [eval_none s pn hno, hc]
    rfl

/-- Witness for C6 at concrete states: a playerless, companyless state
passes the month untouched, and the headless state with a company gains the
income. -/
theorem monthly_evaluation_generic_branch_witness :
    (GameState.mk 1 1 1 none none 0 []).monthly_evaluation 7 =
      (GameState.mk 1 1 1 none none 0 [], "The month rolls by without major events.") ∧
    (headlessState.monthly_evaluation 7).1 =
      { headlessState with company := some (companyWithGroup.update_finances (groupIncome companyWithGroup)) } := by
  constructor
  · exact monthly_evaluation_generic_branch.1 _ 7 (by intro p hp; cases hp) rfl
  · exact monthly_evaluation_generic_branch.2 headlessState 7 companyWithGroup
      (by intro p hp; cases hp) rfl

/-- C10: the daily action "Participate in evaluation" (choice 4 of
`handle_trainee_action`) compares `score() + uniform_int(-10, 25)` against
the threshold `210 + 10*year` (not the monthly `220 + 10*year`); on failure
it increments `trainee_failures` by 1 and applies `adjust_relationship(-5)`,
on success it leaves the failure counter alone; and three such failures
starting from a fresh trainee state reach `trainee_failures = 3`, at which
`check_victory_or_defeat` reports the cut — with `advance_day` (and hence
`monthly_evaluation`) never invoked. -/
theorem daily_evaluation_failures :
    (∀ (s : GameState) (p : Player) (t : Trainee) (focus : String) (d1 d2 : Int),
        s.player = some p → p.character = some t →
        (t.score + d1 < 210 + s.year * 10 →
          (handle_trainee_action s 4 focus d1 d2).1.trainee_failures =
            s.trainee_failures + 1 ∧
          (handle_trainee_action s 4 focus d1 d2).1.character? =
            some (t.adjust_relationship (-5))) ∧
        (210 + s.year * 10 ≤ t.score + d1 →
          (handle_trainee_action s 4 focus d1 d2).1.trainee_failures =
            s.trainee_failures ∧
          (handle_trainee_action s 4 focus d1 d2).1.character? =
            some ((t.adjust_popularity 10).adjust_relationship 5))) ∧
    ((evalStep (evalStep (evalStep demoState))).trainee_failures = 3 ∧
      (evalStep (evalStep (evalStep demoState))).check_victory_or_defeat =
        some "You were cut after repeated failed evaluations.") := by
  constructor
  · intro s p t focus d1 d2 hp hch
    unfold handle_trainee_action
    rw [hp]
    dsimp only
    rw [hch]
    norm_num
    constructor
    · intro hfail
      rw [if_neg (by omega : ¬t.score + d1 ≥ 210 + s.year * 10)]
      exact ⟨rfl, rfl⟩
    · intro hpass
      rw [if_pos (by omega : t.score + d1 ≥ 210 + s.year * 10)]
      exact ⟨rfl, rfl⟩
  · constructor
    · decide
    · decide

/-- Witness for C10: the fresh demo state fails a concrete daily evaluation
(draw −10, so score 140 against threshold 220) and its counter ticks. -/
theorem daily_evaluation_failures_witness :
    (handle_trainee_action demoState 4 "" (-10) 0).1.trainee_failures =
      demoState.trainee_failures + 1 ∧
    (handle_trainee_action demoState 4 "" (-10) 0).1.character? =
      some (demoTrainee.adjust_relationship (-5)) :=
  (daily_evaluation_failures.1 demoState
      { name := "Ara", role := "Trainee", character := some demoTrainee }
      demoTrainee "" (-10) 0 rfl rfl).1 (by decide)

/-- `adjust_relationship` clamps into [0, 100] unconditionally. -/
lemma adjust_relationship_bounds (t : Trainee) (x : Int) :
    0 ≤ (t.adjust_relationship x).relationship ∧
    (t.adjust_relationship x).relationship ≤ 100 := by
  unfold Trainee.adjust_relationship
  dsimp only
  omega

/-- `adjust_popularity` preserves the trainee invariant. -/
lemma traineeInv_adjust_popularity (t : Trainee) (x : Int) (h : TraineeInv t) :
    TraineeInv (t.adjust_popularity x) := by
  unfold TraineeInv Trainee.adjust_popularity at *
  dsimp only at *
  omega

/-- `adjust_relationship` preserves the trainee invariant. -/
lemma traineeInv_adjust_relationship (t : Trainee) (x : Int) (h : TraineeInv t) :
    TraineeInv (t.adjust_relationship x) := by
  unfold TraineeInv Trainee.adjust_relationship at *
  dsimp only at *
  omega

/-- `rest` with a nonnegative recovery draw preserves the trainee
invariant. -/
lemma traineeInv_rest (t : Trainee) (r : Int) (hr : 0 ≤ r) (h : TraineeInv t) :
    TraineeInv (t.rest r).1 := by
  unfold TraineeInv Trainee.rest at *
  dsimp only at *
  omega

/-- `train` with a nonnegative stamina-loss draw preserves the trainee
invariant (skills are unbounded and not part of it). -/
lemma traineeInv_train (t : Trainee) (stat : String) (g l : Int) (hl : 0 ≤ l)
    (h : TraineeInv t) : TraineeInv (t.train stat g l).1 := by
  unfold TraineeInv Trainee.train at *
  dsimp only at *
  repeat' split
  all_goals try dsimp only
  all_goals omega

/-- `set_character` installs exactly the given trainee as the player's
character. -/
lemma character_set (s : GameState) (p : Player) (t : Trainee) :
    (s.set_character p t).character? = some t := rfl

/-- Every branch of `handle_trainee_action` (with the in-range nonnegative
draws the source feeds it) preserves the trainee invariant of the player's
character. -/
lemma traineeInv_handle (s : GameState) (choice : Int) (focus : String)
    (d1 d2 : Int) (t : Trainee) (hd1 : 0 ≤ d1) (hd2 : 0 ≤ d2)
    (ht : s.character? = some t) (hti : TraineeInv t) :
    ∀ t2, (handle_trainee_action s choice focus d1 d2).1.character? = some t2 →
      TraineeInv t2 := by
  intro t2 h2
  unfold handle_trainee_action at h2
  rcases hp : s.player with _ | p <;> rw [hp] at h2 <;> dsimp only at h2
  · unfold GameState.character? at ht
    rw [hp] at ht
    exact absurd ht (by simp)
  · have hch : p.character = some t := by
      unfold GameState.character? at ht
      rw [hp] at ht
      exact ht
    rw [hch] at h2
    dsimp only at h2
    split at h2
    · rw [character_set] at h2
      simp only [Option.some.injEq] at h2
      subst h2
      exact traineeInv_train t focus d1 d2 hd2 hti
    · split at h2
      · rw [character_set] at h2
        simp only [Option.some.injEq] at h2
        subst h2
        exact traineeInv_rest t d1 hd1 hti
      · split at h2
        · rw [character_set] at h2
          simp only [Option.some.injEq] at h2
          subst h2
          exact traineeInv_adjust_popularity _ _ (traineeInv_adjust_relationship t d1 hti)
        · split at h2
          · split at h2
            · rw [character_set] at h2
              simp only [Option.some.injEq] at h2
              subst h2
              exact traineeInv_adjust_relationship _ _ (traineeInv_adjust_popularity t 10 hti)
            · rw [character_set] at h2
              simp only [Option.some.injEq] at h2
              subst h2
              exact traineeInv_adjust_relationship t (-5) hti
          · split at h2 <;>
              (rw [ht] at h2; simp only [Option.some.injEq] at h2; subst h2; exact hti)

/-- C7: `adjust_relationship` lands in [0, 100] for every argument;
`adjust_popularity` never leaves popularity negative; and every Trainee
operation — `train`, `rest`, `adjust_popularity`, `adjust_relationship`,
and every branch of their caller `handle_trainee_action` (with the
nonnegative draws the source feeds them) — preserves the invariant
stamina ∈ [0, 100], popularity ≥ 0, relationship ∈ [0, 100]. -/
theorem trainee_invariant_preservation :
    (∀ (t : Trainee) (x : Int),
        0 ≤ (t.adjust_relationship x).relationship ∧
        (t.adjust_relationship x).relationship ≤ 100) ∧
    (∀ (t : Trainee) (x : Int), 0 ≤ (t.adjust_popularity x).popularity) ∧
    (∀ (t : Trainee) (x : Int), TraineeInv t →
        TraineeInv (t.adjust_popularity x) ∧ TraineeInv (t.adjust_relationship x)) ∧
    (∀ (t : Trainee) (stat : String) (g l : Int), 0 ≤ l → TraineeInv t →
        TraineeInv (t.train stat g l).1) ∧
    (∀ (t : Trainee) (r : Int), 0 ≤ r → TraineeInv t → TraineeInv (t.rest r).1) ∧
    (∀ (s : GameState) (choice : Int) (focus : String) (d1 d2 : Int) (t t2 : Trainee),
        0 ≤ d1 → 0 ≤ d2 → s.character? = some t → TraineeInv t →
        (handle_trainee_action s choice focus d1 d2).1.character? = some t2 →
        TraineeInv t2) := by
  refine ⟨adjust_relationship_bounds, ?_, ?_, traineeInv_train, traineeInv_rest, ?_⟩
  · intro t x
    unfold Trainee.adjust_popularity
    dsimp only
    omega
  · intro t x h
    exact ⟨traineeInv_adjust_popularity t x h, traineeInv_adjust_relationship t x h⟩
  · intro s choice focus d1 d2 t t2 hd1 hd2 ht hti h2
    exact traineeInv_handle s choice focus d1 d2 t hd1 hd2 ht hti t2 h2

/-- Witness for C7 at concrete inputs: a huge negative relationship
adjustment still clamps into [0, 100], and a concrete training session
keeps the invariant. -/
theorem trainee_invariant_preservation_witness :
    (0 ≤ (demoTrainee.adjust_relationship (-500)).relationship ∧
      (demoTrainee.adjust_relationship (-500)).relationship ≤ 100) ∧
    TraineeInv (demoTrainee.train "vocal" 5 10).1 :=
  ⟨trainee_invariant_preservation.1 demoTrainee (-500),
   trainee_invariant_preservation.2.2.2.1 demoTrainee "vocal" 5 10
     (by decide) (by decide)⟩

/-- The trainee branch of the monthly evaluation also leaves the clock and
the log untouched. -/
lemma trainee_eval_frame {s : GameState} {pn : Int} {r : GameState × String}
    (he : s.trainee_eval pn = some r) :
    r.1.day = s.day ∧ r.1.month = s.month ∧ r.1.year = s.year ∧
    r.1.message_log = s.message_log := by
  unfold GameState.trainee_eval at he
  rcases hp : s.player with _ | p <;> rw [hp] at he <;> dsimp only at he
  · exact absurd he (by simp)
  · by_cases hrole : p.role = "Trainee"
    · rw [if_pos hrole] at he
      rcases hch : p.character with _ | t <;> rw [hch] at he
      · exact absurd he (by simp)
      · dsimp only at he
        split at he <;> (cases he; exact ⟨rfl, rfl, rfl, rfl⟩)
    · rw [if_neg hrole] at he
      exact absurd he (by simp)

/-- `monthly_evaluation` changes neither the clock nor the log. -/
lemma monthly_evaluation_clock (s : GameState) (pn : Int) :
    (s.monthly_evaluation pn).1.day = s.day ∧
    (s.monthly_evaluation pn).1.month = s.month ∧
    (s.monthly_evaluation pn).1.year = s.year ∧
    (s.monthly_evaluation pn).1.message_log = s.message_log := by
  unfold GameState.monthly_evaluation
  rcases he : s.trainee_eval pn with _ | r
  · rcases hc : s.company with _ | c <;> exact ⟨rfl, rfl, rfl, rfl⟩
  · exact trainee_eval_frame he

/-- A day that stays within the month only bumps the `day` field. -/
lemma advance_day_no_rollover (s : GameState) (pn : Int) (h : s.day + 1 ≤ 30) :
    s.advance_day pn = { s with day := s.day + 1 } := by
  unfold GameState.advance_day
  dsimp only
  rw [if_neg (by omega)]

/-- Day rollover without month rollover: reset the day, bump the month and
run the monthly evaluation, appending its message. -/
lemma advance_day_rollover_month (s : GameState) (pn : Int) (h : 30 < s.day + 1)
    (h2 : s.month + 1 ≤ 12) :
    s.advance_day pn =
      logAppend (({ s with day := 1, month := s.month + 1 } : GameState).monthly_evaluation pn) := by
  unfold GameState.advance_day logAppend
  dsimp only
  rw [if_pos (by omega), if_neg (by omega)]

/-- Day and month rollover: reset both, bump the year — and still run the
monthly evaluation. -/
lemma advance_day_rollover_year (s : GameState) (pn : Int) (h : 30 < s.day + 1)
    (h2 : 12 < s.month + 1) :
    s.advance_day pn =
      logAppend (({ s with day := 1, month := 1, year := s.year + 1 } : GameState).monthly_evaluation pn) := by
  unfold GameState.advance_day logAppend
  dsimp only
  rw [if_pos (by omega), if_pos (by omega)]

/-- As long as the days fit in the month, `advanceDays` only adds to the
`day` field. -/
lemma advanceDays_no_rollover : ∀ (ps : List Int) (s : GameState),
    s.day + ps.length ≤ 30 →
    advanceDays s ps = { s with day := s.day + ps.length } := by
  intro ps
  induction ps with
  | nil =>
    intro s h
    simp [advanceDays]
  | cons p rest ih =>
    intro s h
    rw [List.length_cons] at h
    push_cast at h
    have hstep : s.advance_day p = { s with day := s.day + 1 } :=
      advance_day_no_rollover s p (by omega)
    have hfold : advanceDays s (p :: rest) = advanceDays (s.advance_day p) rest := rfl
    rw [hfold, hstep, ih _ (by dsimp only; omega)]
    simp only [GameState.mk.injEq, List.length_cons, and_true, true_and]
    push_cast
    ring

/-- `advanceDays` concatenates. -/
lemma advanceDays_append (s : GameState) (a b : List Int) :
    advanceDays s (a ++ b) = advanceDays (advanceDays s a) b := by
  unfold advanceDays
  rw [List.foldl_append]

/-- C3: `advance_day` bumps the day; when the day passes 30 it resets to 1
and bumps the month, when the month then passes 12 it resets to 1 and bumps
the year, and at every month rollover (year rollover included) it runs
`monthly_evaluation`, appending the returned message to the log; hence 30
calls from day 1, month 1 end at day 1, month 2 with exactly one
evaluation message appended. -/
theorem advance_day_clock :
    (∀ (s : GameState) (pn : Int),
        (s.day + 1 ≤ 30 → s.advance_day pn = { s with day := s.day + 1 }) ∧
        (30 < s.day + 1 → s.month + 1 ≤ 12 →
          s.advance_day pn =
            logAppend (({ s with day := 1, month := s.month + 1 } : GameState).monthly_evaluation pn)) ∧
        (30 < s.day + 1 → 12 < s.month + 1 →
          s.advance_day pn =
            logAppend (({ s with day := 1, month := 1, year := s.year + 1 } : GameState).monthly_evaluation pn))) ∧
    (∀ (s : GameState) (ps : List Int),
        s.day = 1 → s.month = 1 → ps.length = 30 →
        (advanceDays s ps).day = 1 ∧ (advanceDays s ps).month = 2 ∧
        ∃ m, (advanceDays s ps).message_log = s.message_log ++ [m]) := by
  constructor
  · intro s pn
    exact ⟨advance_day_no_rollover s pn,
           advance_day_rollover_month s pn,
           advance_day_rollover_year s pn⟩
  · intro s ps hd hm hlen
    have hsplit : ps.take 29 ++ ps.drop 29 = ps := List.take_append_drop 29 ps
    have hlen29 : (ps.take 29).length = 29 := by
      rw [List.length_take]
      omega
    have h29 : advanceDays s (ps.take 29) = { s with day := s.day + (ps.take 29).length } :=
      advanceDays_no_rollover _ s (by rw [hlen29]; omega)
    have hdrop : (ps.drop 29).length = 1 := by
      rw [List.length_drop]
      omega
    obtain ⟨pn, hpn⟩ := List.length_eq_one.mp hdrop
    rw [← hsplit, advanceDays_append, h29, hpn]
    have hone : ∀ s2 : GameState, advanceDays s2 [pn] = s2.advance_day pn := fun _ => rfl
    rw [hone]
    have hroll :
        ({ s with day := s.day + (ps.take 29).length } : GameState).advance_day pn =
          logAppend (({ s with day := 1, month := s.month + 1 } : GameState).monthly_evaluation pn) := by
      have := advance_day_rollover_month
        ({ s with day := s.day + (ps.take 29).length } : GameState) pn
        (by dsimp only; rw [hlen29]; omega) (by dsimp only; omega)
      simpa using this
    rw [hroll]
    obtain ⟨hcd, hcm, hcy, hcl⟩ :=
      monthly_evaluation_clock ({ s with day := 1, month := s.month + 1 } : GameState) pn
    unfold logAppend
    refine ⟨hcd, by rw [hcm]; dsimp only; omega, ?_⟩
    exact ⟨_, by rw [hcl]⟩

/-- Witness for C3: 30 concrete calls on a fresh state land on day 1 of
month 2 with one message in the log. -/
theorem advance_day_clock_witness :
    (advanceDays (GameState.mk 1 1 1 none none 0 []) (List.replicate 30 5)).day = 1 ∧
    (advanceDays (GameState.mk 1 1 1 none none 0 []) (List.replicate 30 5)).month = 2 ∧
    ∃ m, (advanceDays (GameState.mk 1 1 1 none none 0 []) (List.replicate 30 5)).message_log =
      [] ++ [m] :=
  advance_day_clock.2 (GameState.mk 1 1 1 none none 0 []) (List.replicate 30 5)
    rfl rfl (by simp)

end IdoLab
